import Mathlib

/-!
Shallow embedding of the Resume-Screener backend (`backend/parser.py`,
`backend/matcher.py`, `backend/main.py`).

Modelling conventions:
* Python strings are Lean `String`s; `str.lower()` is modelled by `lowerStr`,
  which lowercases the ASCII range (the uppercase letters `A`–`Z`).
* Python floats are modelled as exact rationals (`ℚ`).
* The rapidfuzz scorer `fuzz.PARTIAL_RATIO` is an external library primitive;
  it is abstracted as an explicit `scorer : String → String → ℚ` parameter,
  so every theorem about `extract_skills` holds for the real scorer as well.
* The sentence-transformers model is external; it is abstracted as an
  `Option (String → String → ℚ)` (the `None` sentinel of `matcher.MODEL`).
* Python exceptions raised by the external text extractors are modelled by
  passing the outcome of the underlying `extract_text` call as an
  `Except String String` (error = exception message, ok = extracted text).
* `set(...)` becomes `List.toFinset`, and `sorted(list(...))` becomes
  `Finset.sort (· ≤ ·)` under the lexicographic order on `String`.
-/

/-- ASCII lowercasing of a single character, as `str.lower()` does on the
ASCII range: code points 65–90 (`A`–`Z`) are shifted by 32. -/
def lowerChar (c : Char) : Char :=
  if h : 65 ≤ c.toNat ∧ c.toNat ≤ 90 then
    Char.ofNatAux (c.toNat + 32)
      (Or.inl (Nat.lt_of_le_of_lt (Nat.add_le_add_right h.2 32) (by decide)))
  else c

/-- Model of Python `str.lower()` (ASCII range). -/
def lowerStr (s : String) : String :=
  String.mk (s.data.map lowerChar)

/-- `parser.SKILL_DATABASE`: the static catalog of recognizable skills. -/
def SKILL_DATABASE : List String := [
  "python", "java", "c++", "c#", "javascript", "typescript", "react", "next.js",
  "angular", "vue.js", "node.js", "express.js", "django", "flask", "fastapi",
  "sql", "mysql", "postgresql", "mongodb", "redis", "docker", "kubernetes", "aws",
  "azure", "gcp", "terraform", "ansible", "git", "jira", "scrum", "agile",
  "machine learning", "deep learning", "pytorch", "tensorflow", "scikit-learn",
  "pandas", "numpy", "data analysis", "data visualization", "nlp", "llm",
  "natural language processing", "power bi", "tableau", "figma", "adobe xd",
  "project management", "product management", "ui/ux design", "team leadership"]

/-- `parser.extract_skills`: every catalog entry whose fuzzy score against the
text reaches the threshold is collected into a set, which is returned as a
sorted list (`sorted(list(found_skills))`).  The rapidfuzz call
`process.extract(text, skill_list, scorer=fuzz.PARTIAL_RATIO, limit=None,
score_cutoff=threshold)` keeps exactly the entries with score ≥ threshold;
the scorer itself is an external primitive, taken as a parameter. -/
def extract_skills (scorer : String → String → ℚ) (text : String)
    (skill_list : List String) (threshold : ℚ) : List String :=
  Finset.sort (· ≤ ·)
    (List.toFinset (skill_list.filter (fun skill => threshold ≤ scorer text skill)))

/-- `\d` of the regexes (ASCII digits). -/
def isDigitCh (c : Char) : Bool := '0' ≤ c && c ≤ '9'

/-- `\s` of the regexes (ASCII whitespace). -/
def isSpaceCh (c : Char) : Bool :=
  c = ' ' || c = '\t' || c = '\n' || c = '\r' || c = '\x0b' || c = '\x0c'

/-- The `\s*\+?\s*` gap between the numeric capture and the year word. -/
def skipGap (cs : List Char) : List Char :=
  let r1 := cs.dropWhile isSpaceCh
  let r2 := match r1 with
    | '+' :: t => t
    | _ => r1
  r2.dropWhile isSpaceCh

/-- The tail `ye?a?rs?` of the first regex.  Greedy matching of the three
optional single characters is exact here: skipping an available `e` (resp.
`a`) would force `r` to match `e` (resp. `a`), which is impossible, so no
backtracking can change the outcome. -/
def yearsWord : List Char → Option (List Char)
  | 'y' :: t =>
    let t1 := match t with
      | 'e' :: u => u
      | _ => t
    let t2 := match t1 with
      | 'a' :: u => u
      | _ => t1
    match t2 with
    | 'r' :: u =>
      some (match u with
        | 's' :: v => v
        | _ => u)
    | _ => none
  | _ => none

/-- The tail `yrs?` of the second regex. -/
def yrsWord : List Char → Option (List Char)
  | 'y' :: 'r' :: u =>
    some (match u with
      | 's' :: v => v
      | _ => u)
  | _ => none

/-- The capture group `(\d+\.?\d*)` (greedy, which is exact for this
pattern): one or more digits, an optional dot, then any digits.  Returns the
captured characters and the remaining input. -/
def numberToken (cs : List Char) : Option (List Char × List Char) :=
  match cs with
  | c :: _ =>
    if isDigitCh c then
      let ds := cs.takeWhile isDigitCh
      let r1 := cs.dropWhile isDigitCh
      match r1 with
      | '.' :: t => some (ds ++ '.' :: t.takeWhile isDigitCh, t.dropWhile isDigitCh)
      | _ => some (ds, r1)
    else none
  | [] => none

/-- Attempt to match one whole pattern `(\d+\.?\d*)\s*\+?\s*<word>` at the
start of the input; on success return the capture and the rest of the input
after the match. -/
def tryMatchPat (word : List Char → Option (List Char)) (cs : List Char) :
    Option (List Char × List Char) :=
  match numberToken cs with
  | some (cap, r1) =>
    match word (skipGap r1) with
    | some rest => some (cap, rest)
    | none => none
  | none => none

/-- `re.findall` scanning loop: try the pattern at each position from the
left; on a match, record the capture and resume after the match
(non-overlapping), otherwise advance one character.  Every successful match
consumes at least one character, so fuel equal to the input length is always
sufficient. -/
def findAllFuel (word : List Char → Option (List Char)) :
    Nat → List Char → List (List Char)
  | 0, _ => []
  | _, [] => []
  | fuel + 1, c :: rest =>
    match tryMatchPat word (c :: rest) with
    | some (cap, r) => cap :: findAllFuel word fuel r
    | none => findAllFuel word fuel rest

/-- `re.findall(pattern, text)` for one of the two year patterns. -/
def findAllCaps (word : List Char → Option (List Char)) (cs : List Char) :
    List (List Char) :=
  findAllFuel word cs.length cs

/-- Numeric value of an ASCII digit string. -/
def natOfDigits (ds : List Char) : Nat :=
  ds.foldl (fun n c => 10 * n + (c.toNat - 48)) 0

/-- Python `float(match)` on a capture of shape `\d+\.?\d*`
(e.g. `"5"`, `"3.5"`, `"12."`), as an exact rational. -/
def parseNum (cap : List Char) : ℚ :=
  let intPart := cap.takeWhile isDigitCh
  let rest := cap.dropWhile isDigitCh
  let fracPart := match rest with
    | '.' :: t => t
    | _ => []
  (natOfDigits intPart : ℚ) + (natOfDigits fracPart : ℚ) / ((10 : ℚ) ^ fracPart.length)

/-- All numeric captures of `extract_years_of_experience`: the captures of
pattern `(\d+\.?\d*)\s*\+?\s*ye?a?rs?` followed by those of
`(\d+\.?\d*)\s*\+?\s*yrs?`, each converted by `float`. -/
def yearCaptures (text : String) : List ℚ :=
  (findAllCaps yearsWord text.data ++ findAllCaps yrsWord text.data).map parseNum

/-- `parser.extract_years_of_experience`: `found_years` starts at `[0.0]`,
all captures of both patterns are appended, and the maximum is returned. -/
def extract_years_of_experience (text : String) : ℚ :=
  (yearCaptures text).foldl max 0

/-- Model of Python `str.endswith` (suffix test on the character sequence). -/
def strEndsWith (s suffix : String) : Bool :=
  List.isSuffixOf suffix.data s.data

/-- Result of `parser.parse_resume` (a dict that either carries an `"error"`
key or the parsed fields). -/
inductive ParseOutcome where
  | error (msg : String)
  | ok (raw_text : String) (skills : List String) (experience_years : ℚ)
  deriving DecidableEq

/-- `parser.extract_text_from_pdf`: delegates to the external
`pdfminer.extract_text`; on success the text is lowercased, on any exception
the error is printed and the empty string is returned. -/
def extract_text_from_pdf (extractResult : Except String String) : String :=
  match extractResult with
  | Except.ok t => lowerStr t
  | Except.error _ => ""

/-- `parser.extract_text_from_docx`: same contract as the PDF extractor,
delegating to `docx2txt.process`. -/
def extract_text_from_docx (extractResult : Except String String) : String :=
  match extractResult with
  | Except.ok t => lowerStr t
  | Except.error _ => ""

/-- `parser.parse_resume`: dispatch on the file extension, extract the text,
report an error when no text could be obtained, otherwise extract skills
(threshold 85) and years of experience. -/
def parse_resume (scorer : String → String → ℚ) (file_path : String)
    (extractResult : Except String String) : ParseOutcome :=
  if strEndsWith file_path ".pdf" || strEndsWith file_path ".docx" then
    let text := if strEndsWith file_path ".pdf" then extract_text_from_pdf extractResult
      else extract_text_from_docx extractResult
    if text = "" then ParseOutcome.error "Could not read text from file"
    else ParseOutcome.ok text (extract_skills scorer text SKILL_DATABASE 85)
      (extract_years_of_experience text)
  else ParseOutcome.error "Unsupported file type"

/-- `parser.parse_skills_from_jd`: lowercase the job description and extract
skills against the catalog with the stricter threshold 90. -/
def parse_skills_from_jd (scorer : String → String → ℚ) (jd_text : String) :
    List String :=
  let jd_text_lower := lowerStr jd_text
  extract_skills scorer jd_text_lower SKILL_DATABASE 90

/-- `matcher.calculate_semantic_similarity`: if the model is `None`, log and
return `0.0`; otherwise delegate to the external embedding + cosine
similarity computation. -/
def calculate_semantic_similarity (model : Option (String → String → ℚ))
    (text1 text2 : String) : ℚ :=
  match model with
  | none => 0
  | some f => f text1 text2

/-- Result of `matcher.check_skill_coverage`. -/
structure CoverageResult where
  matched_skills : List String
  missing_skills : List String
  coverage_percentage : ℚ
  deriving DecidableEq

/-- `matcher.check_skill_coverage`: empty requirement gives vacuous full
coverage; otherwise set intersection / difference, sorted, with the ratio of
matched count to the number of distinct required skills. -/
def check_skill_coverage (resume_skills jd_skills : List String) : CoverageResult :=
  if jd_skills = [] then
    { matched_skills := []
      missing_skills := []
      coverage_percentage := 1 }
  else
    let set_resume_skills := resume_skills.toFinset
    let set_jd_skills := jd_skills.toFinset
    let matched_skills := Finset.sort (· ≤ ·) (set_resume_skills ∩ set_jd_skills)
    let missing_skills := Finset.sort (· ≤ ·) (set_jd_skills \ set_resume_skills)
    { matched_skills := matched_skills
      missing_skills := missing_skills
      coverage_percentage := (matched_skills.length : ℚ) / (set_jd_skills.card : ℚ) }

/-- The weight dictionary of `matcher.calculate_final_score`. -/
structure WeightConfig where
  semantic : ℚ
  skill : ℚ
  deriving DecidableEq

/-- Round a rational to the nearest integer, ties to even — the rounding used
by Python `format` (`:.0f`, `:.2f`). -/
def roundHalfEven (q : ℚ) : ℤ :=
  let f := ⌊q⌋
  let frac := q - (f : ℚ)
  if frac < 1 / 2 then f
  else if 1 / 2 < frac then f + 1
  else if f % 2 = 0 then f else f + 1

/-- Python `f"{q:.0f}"`. -/
def formatFixed0 (q : ℚ) : String :=
  toString (roundHalfEven q)

/-- Python `f"{q:.2f}"`. -/
def formatFixed2 (q : ℚ) : String :=
  let n := roundHalfEven (100 * q)
  let sign := if n < 0 then "-" else ""
  let a := n.natAbs
  sign ++ toString (a / 100) ++ "." ++ (if a % 100 < 10 then "0" else "") ++ toString (a % 100)

/-- Result of `matcher.calculate_final_score`. -/
structure ScoreResult where
  final_score : ℚ
  explanation : String
  deriving DecidableEq

/-- `matcher.calculate_final_score`: default weights 0.6/0.4 when `None` is
passed, weighted sum with no clamping, plus the templated explanation. -/
def calculate_final_score (semantic_score skill_coverage : ℚ)
    (weights : Option WeightConfig := none) : ScoreResult :=
  let w := match weights with
    | none => { semantic := 0.6, skill := 0.4 : WeightConfig }
    | some w => w
  let weighted_score := w.semantic * semantic_score + w.skill * skill_coverage
  let explanation :=
    "Score based on " ++ formatFixed0 (w.semantic * 100) ++ "% semantic similarity (" ++
      formatFixed2 semantic_score ++ ") and " ++ formatFixed0 (w.skill * 100) ++
      "% skill coverage (" ++ formatFixed2 skill_coverage ++ ")."
  { final_score := weighted_score
    explanation := explanation }

/-- Response record of the `/rank` endpoint (`main.RankResult`). -/
structure RankResult where
  filename : String
  resume_skills : List String
  experience_years : ℚ
  jd_skills : List String
  semantic_similarity : ℚ
  skill_coverage : CoverageResult
  final_score : ℚ
  explanation : String

/-- `main.rank_resume`, the `/rank` endpoint pipeline.  An HTTP error
response is an `(status, detail)` pair.  The `MODEL is None` check happens
before the `try` block and aborts with 500.  A parse error raises
`HTTPException(400, ...)` inside the `try` block, but the surrounding
`except Exception` catch-all intercepts it (FastAPI's `HTTPException` is an
`Exception`) and re-raises `HTTPException(500, f"An unexpected error
occurred: {e}")`, where `str(e)` of an `HTTPException` renders as
`"{status_code}: {detail}"`. -/
def rank_resume (model : Option (String → String → ℚ))
    (scorer : String → String → ℚ) (job_description : String)
    (filename : String) (extractResult : Except String String) :
    Except (Nat × String) RankResult :=
  if model.isNone then
    Except.error (500, "ML Model is not loaded. Cannot process request.")
  else
    match parse_resume scorer filename extractResult with
    | ParseOutcome.error e =>
      Except.error (500, "An unexpected error occurred: 400: Error parsing resume: " ++ e)
    | ParseOutcome.ok raw_text skills experience =>
      let jd_skills := parse_skills_from_jd scorer job_description
      let semantic_score := calculate_semantic_similarity model raw_text job_description
      let skill_coverage_data := check_skill_coverage skills jd_skills
      let score_data := calculate_final_score semantic_score
        skill_coverage_data.coverage_percentage
      Except.ok
        { filename := filename
          resume_skills := skills
          experience_years := experience
          jd_skills := jd_skills
          semantic_similarity := semantic_score
          skill_coverage := skill_coverage_data
          final_score := score_data.final_score
          explanation := score_data.explanation }

/-- A trivial stand-in scorer used for concrete counterexample inputs. -/
def zeroScorer : String → String → ℚ := fun _ _ => 0

/-! ## Helper lemmas -/

theorem toNat_ofNatAux (n : Nat) (h : n.isValidChar) : (Char.ofNatAux n h).toNat = n := rfl

theorem lowerChar_idem (c : Char) : lowerChar (lowerChar c) = lowerChar c := by
  unfold lowerChar
  by_cases h : 65 ≤ c.toNat ∧ c.toNat ≤ 90
  · rw [dif_pos h, dif_neg]
    rw [toNat_ofNatAux]
    omega
  · rw [dif_neg h, dif_neg h]

theorem lowerStr_idem (s : String) : lowerStr (lowerStr s) = lowerStr s := by
  unfold lowerStr
  apply congrArg
  rw [List.map_map]
  exact List.map_congr_left (fun x _ => lowerChar_idem x)

theorem foldl_max_bounds (l : List ℚ) :
    ∀ a : ℚ, a ≤ l.foldl max a ∧ ∀ x ∈ l, x ≤ l.foldl max a := by
  induction l with
  | nil =>
    intro a
    exact ⟨le_refl _, by simp⟩
  | cons b t ih =>
    intro a
    constructor
    · exact le_trans (le_max_left a b) (ih (max a b)).1
    · intro x hx
      rcases List.mem_cons.mp hx with rfl | hx
      · exact le_trans (le_max_right a x) (ih (max a x)).1
      · exact (ih (max a b)).2 x hx

theorem foldl_max_eq_or_mem (l : List ℚ) :
    ∀ a : ℚ, l.foldl max a = a ∨ l.foldl max a ∈ l := by
  induction l with
  | nil =>
    intro a
    exact Or.inl rfl
  | cons b t ih =>
    intro a
    rw [List.foldl_cons]
    rcases ih (max a b) with h | h
    · rcases max_choice a b with hc | hc
      · exact Or.inl (by rw [h, hc])
      · exact Or.inr (by rw [h, hc]; exact List.mem_cons_self b t)
    · exact Or.inr (List.mem_cons_of_mem b h)

theorem parseNum_nonneg (cap : List Char) : 0 ≤ parseNum cap := by
  unfold parseNum
  exact add_nonneg (Nat.cast_nonneg _)
    (div_nonneg (Nat.cast_nonneg _) (pow_nonneg (by norm_num) _))

/-- The conjunction of properties C3 asserts of `check_skill_coverage` on a
non-empty required-skill list. -/
def CoverageSpec (resume_skills jd_skills : List String) : Prop :=
  (∀ s, s ∈ (check_skill_coverage resume_skills jd_skills).matched_skills ↔
    s ∈ resume_skills ∧ s ∈ jd_skills) ∧
  (∀ s, s ∈ (check_skill_coverage resume_skills jd_skills).missing_skills ↔
    s ∈ jd_skills ∧ s ∉ resume_skills) ∧
  (check_skill_coverage resume_skills jd_skills).matched_skills.Sorted (· ≤ ·) ∧
  (check_skill_coverage resume_skills jd_skills).matched_skills.Nodup ∧
  (check_skill_coverage resume_skills jd_skills).missing_skills.Sorted (· ≤ ·) ∧
  (check_skill_coverage resume_skills jd_skills).missing_skills.Nodup ∧
  (∀ s, (s ∈ (check_skill_coverage resume_skills jd_skills).matched_skills ∨
    s ∈ (check_skill_coverage resume_skills jd_skills).missing_skills) ↔ s ∈ jd_skills) ∧
  (∀ s, ¬(s ∈ (check_skill_coverage resume_skills jd_skills).matched_skills ∧
    s ∈ (check_skill_coverage resume_skills jd_skills).missing_skills)) ∧
  (check_skill_coverage resume_skills jd_skills).coverage_percentage =
    ((check_skill_coverage resume_skills jd_skills).matched_skills.length : ℚ) /
      (jd_skills.dedup.length : ℚ)

/-! ## Claim theorems -/

/-- C2: for every scorer, text, skill catalog and threshold, `extract_skills`
returns a subset of the catalog, without duplicates, sorted in ascending
lexicographic order. -/
theorem extract_skills_subset_nodup_sorted (scorer : String → String → ℚ)
    (text : String) (skill_list : List String) (threshold : ℚ) :
    extract_skills scorer text skill_list threshold ⊆ skill_list ∧
    (extract_skills scorer text skill_list threshold).Nodup ∧
    (extract_skills scorer text skill_list threshold).Sorted (· ≤ ·) := by
  refine ⟨?_, Finset.sort_nodup _ _, Finset.sort_sorted _ _⟩
  intro a ha
  unfold extract_skills at ha
  rw [Finset.mem_sort, List.mem_toFinset, List.mem_filter] at ha
  exact ha.1

/-- C4: with an empty required-skill list, `check_skill_coverage` returns
full vacuous coverage 1.0 with empty matched and missing lists. -/
theorem check_skill_coverage_empty_required (resume_skills : List String) :
    check_skill_coverage resume_skills [] =
      { matched_skills := [], missing_skills := [], coverage_percentage := 1 } := rfl

/-- C3: on a non-empty required list, matched is the sorted intersection,
missing the sorted difference, their union is the required set, they are
disjoint, and the coverage is the exact ratio of matched to distinct required
skills. -/
theorem check_skill_coverage_correct (resume_skills jd_skills : List String)
    (h : jd_skills ≠ []) : CoverageSpec resume_skills jd_skills := by
  unfold CoverageSpec check_skill_coverage
  rw [if_neg h]
  dsimp only
  refine ⟨?_, ?_, Finset.sort_sorted _ _, Finset.sort_nodup _ _,
    Finset.sort_sorted _ _, Finset.sort_nodup _ _, ?_, ?_, ?_⟩
  · intro s
    simp [Finset.mem_sort, Finset.mem_inter, List.mem_toFinset]
  · intro s
    simp [Finset.mem_sort, Finset.mem_sdiff, List.mem_toFinset]
  · intro s
    simp only [Finset.mem_sort, Finset.mem_inter, Finset.mem_sdiff, List.mem_toFinset]
    tauto
  · intro s
    simp only [Finset.mem_sort, Finset.mem_inter, Finset.mem_sdiff, List.mem_toFinset]
    tauto
  · rw [List.card_toFinset]

/-- Witness for C3 at a concrete input. -/
theorem check_skill_coverage_correct_witness :
    (["java", "aws", "sql"] : List String) ≠ [] ∧
    CoverageSpec ["java", "python", "aws"] ["java", "aws", "sql"] :=
  ⟨by decide, check_skill_coverage_correct ["java", "python", "aws"] ["java", "aws", "sql"]
    (by decide)⟩

/-- C9: `check_skill_coverage` depends only on the sets of elements of its
arguments: inputs with equal element sets (permutations, duplicated entries)
produce identical results. -/
theorem check_skill_coverage_set_extensional (r r' j j' : List String)
    (hr : r.toFinset = r'.toFinset) (hj : j.toFinset = j'.toFinset) :
    check_skill_coverage r j = check_skill_coverage r' j' := by
  unfold check_skill_coverage
  by_cases hje : j = []
  · have hje' : j' = [] := by
      rw [← List.toFinset_eq_empty_iff, ← hj, hje, List.toFinset_nil]
    rw [if_pos hje, if_pos hje']
  · have hje' : j' ≠ [] := by
      intro hh
      exact hje (by rw [← List.toFinset_eq_empty_iff, hj, hh, List.toFinset_nil])
    rw [if_neg hje, if_neg hje', hr, hj]

/-- Witness for C9 at concrete inputs: a permutation with duplicates added on
both sides leaves the result unchanged. -/
theorem check_skill_coverage_set_extensional_witness :
    (["b", "a", "a"] : List String).toFinset = (["a", "b"] : List String).toFinset ∧
    (["x", "y"] : List String).toFinset = (["y", "x", "y"] : List String).toFinset ∧
    check_skill_coverage ["b", "a", "a"] ["x", "y"] =
      check_skill_coverage ["a", "b"] ["y", "x", "y"] :=
  ⟨by decide, by decide,
    check_skill_coverage_set_extensional _ _ _ _ (by decide) (by decide)⟩

/-- C10: `parse_skills_from_jd` is case-insensitive, and equals
`extract_skills` on the lowercased text with the catalog at threshold 90. -/
theorem parse_skills_from_jd_case_insensitive (scorer : String → String → ℚ)
    (jd_text : String) :
    parse_skills_from_jd scorer jd_text = parse_skills_from_jd scorer (lowerStr jd_text) ∧
    parse_skills_from_jd scorer jd_text =
      extract_skills scorer (lowerStr jd_text) SKILL_DATABASE 90 := by
  constructor
  · unfold parse_skills_from_jd
    rw [lowerStr_idem]
  · rfl

/-- C5: with the default weights, the final score is exactly the linear
blend 0.6·s + 0.4·c, with no clamping or normalization. -/
theorem calculate_final_score_default_blend (s c : ℚ) (hs0 : 0 ≤ s) (hs1 : s ≤ 1)
    (hc0 : 0 ≤ c) (hc1 : c ≤ 1) :
    (calculate_final_score s c none).final_score = 0.6 * s + 0.4 * c := rfl

/-- Witness for C5 at s = 0, c = 1. -/
theorem calculate_final_score_default_blend_witness :
    (0 : ℚ) ≤ 0 ∧ (0 : ℚ) ≤ 1 ∧ (1 : ℚ) ≤ 1 ∧
    (calculate_final_score 0 1 none).final_score = 0.6 * 0 + 0.4 * 1 :=
  ⟨by decide, by decide, by decide,
    calculate_final_score_default_blend 0 1 (by decide) (by decide) (by decide) (by decide)⟩

/-- C1 (amended): `calculate_semantic_similarity` does return 0.0 whenever
the model is `None`, but `rank_resume` rejects every request with an HTTP 500
error when `MODEL` is `None`, so no request completes with
`semantic_similarity = 0.0` under that condition. -/
theorem model_unavailable_behavior :
    (∀ t1 t2, calculate_semantic_similarity none t1 t2 = 0) ∧
    (∀ scorer jd filename ext, rank_resume none scorer jd filename ext =
      Except.error (500, "ML Model is not loaded. Cannot process request.")) :=
  ⟨fun _ _ => rfl, fun _ _ _ _ => rfl⟩

/-- C1 counterexample: with the model unavailable, a well-formed request is
aborted with HTTP 500 solely because of that condition — it does not complete
with `semantic_similarity = 0.0`. -/
theorem model_unavailable_aborts_request :
    rank_resume none zeroScorer "job description" "resume.pdf"
      (Except.ok "five years of python experience") =
    Except.error (500, "ML Model is not loaded. Cannot process request.") := rfl

/-- C8 counterexample: an extraction failure (underlying cause `"corrupt
stream"`) and a successful extraction of empty text produce the *same*
`parse_resume` outcome — there is no distinct `ExtractionFailed` condition
and the underlying cause is not carried. -/
theorem extraction_failure_indistinct_from_empty :
    parse_resume zeroScorer "resume.pdf" (Except.error "corrupt stream") =
      ParseOutcome.error "Could not read text from file" ∧
    parse_resume zeroScorer "resume.pdf" (Except.ok "") =
      ParseOutcome.error "Could not read text from file" := ⟨rfl, rfl⟩

/-- C8 (amended): when text extraction fails, the extractor swallows the
exception and returns the empty string, and `parse_resume` reports the same
request-level error as for an empty document; the endpoint surfaces it as an
HTTP error response (a 500, because the endpoint's catch-all intercepts the
`HTTPException(400, ...)`), never a crash. -/
theorem extraction_failure_degrades (scorer : String → String → ℚ) (msg : String) :
    extract_text_from_pdf (Except.error msg) = "" ∧
    parse_resume scorer "resume.pdf" (Except.error msg) =
      ParseOutcome.error "Could not read text from file" ∧
    parse_resume scorer "resume.pdf" (Except.ok "") =
      ParseOutcome.error "Could not read text from file" ∧
    (∀ f jd, rank_resume (some f) scorer jd "resume.pdf" (Except.error msg) =
      Except.error (500,
        "An unexpected error occurred: 400: Error parsing resume: Could not read text from file")) :=
  ⟨rfl, rfl, rfl, fun _ _ => rfl⟩


/-- C6: with the default weights the explanation is exactly the template
with the weight percentages rendered as 60 and 40 and the two scores rendered
to two decimal places. -/
theorem calculate_final_score_explanation (s c : ℚ) :
    (calculate_final_score s c none).explanation =
      "Score based on 60% semantic similarity (" ++ formatFixed2 s ++
        ") and 40% skill coverage (" ++ formatFixed2 c ++ ")." := by
  have h60 : formatFixed0 ((0.6 : ℚ) * 100) = "60" := by with_unfolding_all rfl
  have h40 : formatFixed0 ((0.4 : ℚ) * 100) = "40" := by with_unfolding_all rfl
  show "Score based on " ++ formatFixed0 ((0.6 : ℚ) * 100) ++ "% semantic similarity (" ++
      formatFixed2 s ++ ") and " ++ formatFixed0 ((0.4 : ℚ) * 100) ++ "% skill coverage (" ++
      formatFixed2 c ++ ")." = _
  rw [h60, h40]
  rw [show ("Score based on 60% semantic similarity (" : String) =
    "Score based on " ++ "60" ++ "% semantic similarity (" from rfl]
  rw [show ((") and 40% skill coverage (" : String)) =
    ") and " ++ "40" ++ "% skill coverage (" from rfl]
  simp only [String.append_assoc]

/-- C7: the extracted years value is 0.0 when no pattern matches, is
otherwise the maximum of all numeric captures of the two year patterns, is
always non-negative, and on "5+ years, also 3 yrs" equals 5.0. -/
theorem extract_years_spec (text : String) :
    (yearCaptures text = [] → extract_years_of_experience text = 0) ∧
    (yearCaptures text ≠ [] →
      extract_years_of_experience text ∈ yearCaptures text ∧
      ∀ x ∈ yearCaptures text, x ≤ extract_years_of_experience text) ∧
    0 ≤ extract_years_of_experience text ∧
    extract_years_of_experience "5+ years, also 3 yrs" = 5 := by
  refine ⟨?_, ?_, (foldl_max_bounds (yearCaptures text) 0).1, by with_unfolding_all rfl⟩
  · intro h
    unfold extract_years_of_experience
    rw [h]
    rfl
  · intro h
    have hub := foldl_max_bounds (yearCaptures text) 0
    have hnn : ∀ x ∈ yearCaptures text, 0 ≤ x := by
      intro x hx
      rcases List.mem_map.mp hx with ⟨cap, _, rfl⟩
      exact parseNum_nonneg cap
    refine ⟨?_, hub.2⟩
    rcases foldl_max_eq_or_mem (yearCaptures text) 0 with he | hm
    · obtain ⟨cv, hcv⟩ := List.exists_mem_of_ne_nil _ h
      have h1 : cv ≤ extract_years_of_experience text := hub.2 cv hcv
      have h2 : 0 ≤ cv := hnn cv hcv
      have h3 : extract_years_of_experience text = cv := by
        have h0 : extract_years_of_experience text = 0 := he
        rw [h0]
        exact le_antisymm h2 (h0 ▸ h1)
      rw [h3]
      exact hcv
    · exact hm

/-- Witness for C7: the empty-capture hypothesis and the nonempty-capture
hypothesis discharged at concrete inputs. -/
theorem extract_years_spec_witness :
    yearCaptures "plain text" = [] ∧
    extract_years_of_experience "plain text" = 0 ∧
    yearCaptures "4 years" ≠ [] ∧
    extract_years_of_experience "4 years" ∈ yearCaptures "4 years" :=
  ⟨by decide, (extract_years_spec "plain text").1 (by decide), by decide,
    ((extract_years_spec "4 years").2.1 (by decide)).1⟩
